import Mathlib

/-!
Shallow embedding of the forkful calculation engine.

Numbers are modelled as rationals (`ℚ`): the TypeScript source computes with
IEEE doubles, but every claim is about the algorithmic content (sums, ratios,
fixed conversion factors, `Math.max`, `Math.round`, `Math.ceil`), which the
exact arithmetic captures.  `Math.round x` is `⌊x + 1/2⌋` (round half toward
+∞) and `Math.ceil` is `⌈·⌉`.  Timestamps (`Date.getTime()`) are integers of
milliseconds; `null`/`undefined` values are `Option`/the empty string, with
the JavaScript `a || b` fallback on strings made explicit as `jsOr`.
-/

namespace Forkful

/-- `Math.round` of JavaScript: rounds half toward positive infinity. -/
def jsRound (q : ℚ) : ℤ := ⌊q + 1/2⌋

/-- JavaScript `a || b` on strings: the empty string is falsy. -/
def jsOr (a b : String) : String := if a = "" then b else a

/-! ## Unit conversion table (src/utils/unitConversion.ts) -/

inductive UnitCategory
  | mass
  | volume
  | custom
deriving DecidableEq

/-- `MASS_UNITS` from unitConversion.ts. -/
def MASS_UNITS : List String := ["g", "kg", "oz", "lb", "mg"]

/-- `VOLUME_UNITS` from unitConversion.ts. -/
def VOLUME_UNITS : List String := ["ml", "l", "cup", "Tbs", "tsp", "fl-oz"]

/-- `getUnitCategory` from unitConversion.ts. -/
def getUnitCategory (unit : String) : UnitCategory :=
  if unit ∈ MASS_UNITS then .mass
  else if unit ∈ VOLUME_UNITS then .volume
  else .custom

/-- `MASS_TO_GRAMS` lookup table: conversion factor of a mass unit to grams. -/
def MASS_TO_GRAMS : String → Option ℚ := fun u =>
  if u = "mg" then some 0.001
  else if u = "g" then some 1
  else if u = "kg" then some 1000
  else if u = "oz" then some 28.3495
  else if u = "lb" then some 453.592
  else none

/-- `VOLUME_TO_ML` lookup table: conversion factor of a volume unit to
milliliters. -/
def VOLUME_TO_ML : String → Option ℚ := fun u =>
  if u = "ml" then some 1
  else if u = "l" then some 1000
  else if u = "tsp" then some 4.92892
  else if u = "Tbs" then some 14.7868
  else if u = "fl-oz" then some 29.5735
  else if u = "cup" then some 236.588
  else none

/-- `canConvert` from unitConversion.ts: same category and not custom. -/
def canConvert (fromUnit toUnit : String) : Bool :=
  decide (getUnitCategory fromUnit = getUnitCategory toUnit)
    && !(decide (getUnitCategory fromUnit = .custom))

/-- `convertUnit` from unitConversion.ts: `null` when not convertible,
otherwise `value * factor(from) / factor(to)` through the category's base
unit. -/
def convertUnit (value : ℚ) (fromUnit toUnit : String) : Option ℚ :=
  if !(canConvert fromUnit toUnit) then none
  else if getUnitCategory fromUnit = .mass then
    match MASS_TO_GRAMS fromUnit, MASS_TO_GRAMS toUnit with
    | some fromFactor, some toFactor => some ((value * fromFactor) / toFactor)
    | _, _ => none
  else if getUnitCategory fromUnit = .volume then
    match VOLUME_TO_ML fromUnit, VOLUME_TO_ML toUnit with
    | some fromFactor, some toFactor => some ((value * fromFactor) / toFactor)
    | _, _ => none
  else none

/-- `calculateCalories` from unitConversion.ts. -/
def calculateCalories (baseCalories baseServingSize : ℚ) (baseServingUnit : String)
    (targetAmount : ℚ) (targetUnit : String) : Option ℚ :=
  if baseServingUnit = targetUnit then
    some ((baseCalories / baseServingSize) * targetAmount)
  else
    match convertUnit targetAmount targetUnit baseServingUnit with
    | none => none
    | some convertedAmount => some ((baseCalories / baseServingSize) * convertedAmount)

/-! ## Data model (src/types) -/

/-- `Food` from types/Food.ts.  The optional `servingUnit?: string` is
modelled as a `String` where `""` stands for `undefined` (JavaScript treats
both as falsy in the `||` fallbacks the engine uses). -/
structure Food where
  id : ℤ
  name : String
  calories : ℚ
  protein : ℚ
  carbs : ℚ
  fat : ℚ
  fiber : ℚ
  servingSize : ℚ
  servingUnit : String
deriving DecidableEq

/-- `Ingredient` from types/Ingredient.ts. -/
structure Ingredient where
  food : Food
  quantity : ℚ
  calories : ℚ
  servingUnit : String
deriving DecidableEq

/-- `Recipe` restricted to the fields the readiness scorer reads
(types/Recipe.ts also carries name, meal category, description, dates). -/
structure Recipe where
  id : ℤ
  ingredients : List Ingredient
deriving DecidableEq

inductive PantryItemStatus
  | expired
  | expiringSoon
  | good
deriving DecidableEq

/-- The `{ size, unit }` records used for `originalSize`/`currentSize` of a
pantry item; `unit` may be the empty string (missing). -/
structure SizeSpec where
  size : ℚ
  unit : String
deriving DecidableEq

/-- `PantryItem` from types/PantryItem.ts; `expirationDate`/`addedDate` hold
millisecond timestamps. -/
structure PantryItem where
  id : ℤ
  food : Food
  expirationDate : Option ℤ
  quantity : ℚ
  quantityLeft : ℚ
  originalSize : SizeSpec
  currentSize : SizeSpec
  addedDate : ℤ
  status : PantryItemStatus
deriving DecidableEq

/-! ## Ingredient availability and recipe readiness (recipeReadiness.ts) -/

/-- The `IngredientAvailability` result record. -/
structure IngredientAvailability where
  ingredient : Ingredient
  available : ℚ
  needed : ℚ
  unit : String
  isSufficient : Bool
  shortage : ℚ
deriving DecidableEq

/-- The `RecipeReadiness` result record. -/
structure RecipeReadiness where
  recipeId : ℤ
  totalIngredients : ℕ
  availableIngredients : ℕ
  partialIngredients : ℕ
  missingIngredients : ℕ
  readinessScore : ℤ
  ingredientDetails : List IngredientAvailability
deriving DecidableEq

/-- The filter of `calculateIngredientAvailability`: pantry items of the same
food that are not expired. -/
def matchingPantryItems (ingredient : Ingredient) (pantryItems : List PantryItem) :
    List PantryItem :=
  pantryItems.filter fun item =>
    decide (item.food.id = ingredient.food.id) && !(decide (item.status = .expired))

/-- One matching pantry item's contribution to `totalAvailable` in the loop of
`calculateIngredientAvailability`: the item's `currentSize.size` taken in
`currentSize.unit || ingredient.food.servingUnit || 'g'`, added directly on an
exact unit match, converted when convertible, and skipped otherwise. -/
def itemContribution (ingredient : Ingredient) (item : PantryItem) : ℚ :=
  let unit := ingredient.servingUnit
  let itemQuantity := item.currentSize.size
  let itemUnit := jsOr item.currentSize.unit (jsOr ingredient.food.servingUnit "g")
  if itemUnit = unit then itemQuantity
  else if canConvert itemUnit unit then
    match convertUnit itemQuantity itemUnit unit with
    | some converted => converted
    | none => 0
  else 0

/-- `calculateIngredientAvailability` from recipeReadiness.ts. -/
def calculateIngredientAvailability (ingredient : Ingredient)
    (pantryItems : List PantryItem) : IngredientAvailability :=
  let needed := ingredient.quantity
  let unit := ingredient.servingUnit
  let matchingItems := matchingPantryItems ingredient pantryItems
  if matchingItems.length = 0 then
    { ingredient := ingredient, available := 0, needed := needed, unit := unit,
      isSufficient := false, shortage := needed }
  else
    let totalAvailable := (matchingItems.map (itemContribution ingredient)).sum
    { ingredient := ingredient, available := totalAvailable, needed := needed,
      unit := unit, isSufficient := decide (totalAvailable ≥ needed),
      shortage := max 0 (needed - totalAvailable) }

/-- `calculateRecipeReadiness` from recipeReadiness.ts. -/
def calculateRecipeReadiness (recipe : Recipe) (pantryItems : List PantryItem) :
    RecipeReadiness :=
  let ingredientDetails := recipe.ingredients.map fun ingredient =>
    calculateIngredientAvailability ingredient pantryItems
  let totalIngredients := ingredientDetails.length
  let availableIngredients :=
    (ingredientDetails.filter fun detail => detail.isSufficient).length
  let missingIngredients :=
    (ingredientDetails.filter fun detail => decide (detail.available = 0)).length
  let partialIngredients :=
    (ingredientDetails.filter fun detail =>
      decide (detail.available > 0) && !detail.isSufficient).length
  let score : ℚ :=
    if totalIngredients = 0 then 0
    else ((availableIngredients + partialIngredients * (1/2) : ℚ) / totalIngredients) * 100
  { recipeId := recipe.id, totalIngredients := totalIngredients,
    availableIngredients := availableIngredients,
    partialIngredients := partialIngredients,
    missingIngredients := missingIngredients,
    readinessScore := jsRound score,
    ingredientDetails := ingredientDetails }

/-! ## Recipe similarity (Pages/Recipe/Store.tsx) -/

/-- The normalization step of `calculateJaccardSimilarity`: lowercase and trim
each name, then collect the distinct results (the JavaScript `Set`). -/
def normalizeNames (names : List String) : Finset String :=
  (names.map fun name => name.toLower.trim).toFinset

/-- `calculateJaccardSimilarity` from Pages/Recipe/Store.tsx. -/
def calculateJaccardSimilarity (ingredientsA ingredientsB : List String) : ℚ :=
  let setA := normalizeNames ingredientsA
  let setB := normalizeNames ingredientsB
  if setA.card = 0 ∨ setB.card = 0 then 0
  else ((setA ∩ setB).card : ℚ) / ((setA ∪ setB).card : ℚ)

/-! ## Pantry freshness classifier (src/stores/pantry.ts) -/

def MILLISECONDS_PER_DAY : ℤ := 1000 * 60 * 60 * 24

def EXPIRING_SOON_THRESHOLD_DAYS : ℤ := 7

/-- `calculateStatus` from src/stores/pantry.ts (the `Date | null` variant):
`now` and the expiration date are millisecond timestamps. -/
def calculateStatus (expirationDate : Option ℤ) (now : ℤ) : PantryItemStatus :=
  match expirationDate with
  | none => .good
  | some expDate =>
    let daysUntilExpiration : ℤ :=
      ⌈((expDate - now : ℤ) : ℚ) / (MILLISECONDS_PER_DAY : ℚ)⌉
    if daysUntilExpiration < 0 then .expired
    else if daysUntilExpiration ≤ EXPIRING_SOON_THRESHOLD_DAYS then .expiringSoon
    else .good

/-! ## Concrete instances used by witnesses and counterexamples
(values follow src/utils/recipeReadiness.test.ts). -/

/-- The `mockChicken` fixture of recipeReadiness.test.ts. -/
def mockChicken : Food :=
  { id := 1, name := "Chicken", calories := 165, protein := 31, carbs := 0,
    fat := 3.6, fiber := 0, servingSize := 100, servingUnit := "g" }

/-- The `mockRice` fixture of recipeReadiness.test.ts. -/
def mockRice : Food :=
  { id := 2, name := "Rice", calories := 130, protein := 2.7, carbs := 28,
    fat := 0.3, fiber := 0.4, servingSize := 100, servingUnit := "g" }

/-- An ingredient asking for `q` grams of chicken. -/
def chickenIngredient (q : ℚ) : Ingredient :=
  { food := mockChicken, quantity := q, calories := 330, servingUnit := "g" }

/-- An ingredient asking for `q` grams of rice. -/
def riceIngredient (q : ℚ) : Ingredient :=
  { food := mockRice, quantity := q, calories := 130, servingUnit := "g" }

/-- A non-expired pantry item holding `sz` grams of `food`. -/
def pantryItemOf (i : ℤ) (food : Food) (sz : ℚ) : PantryItem :=
  { id := i, food := food, expirationDate := none, quantity := 1,
    quantityLeft := 1, originalSize := ⟨sz, "g"⟩, currentSize := ⟨sz, "g"⟩,
    addedDate := 0, status := .good }

/-- Pantry with plenty of chicken and one gram of rice. -/
def samplePantry : List PantryItem :=
  [pantryItemOf 1 mockChicken 1000, pantryItemOf 2 mockRice 1]

/-- A 100-ingredient recipe: 99 satisfiable chicken lines and one rice line
that the pantry only partially covers. -/
def hundredIngredientRecipe : Recipe :=
  { id := 1, ingredients := List.replicate 99 (chickenIngredient 1) ++ [riceIngredient 2] }

/-- An expired pantry item holding 500 g of chicken. -/
def expiredChickenItem : PantryItem :=
  { pantryItemOf 3 mockChicken 500 with status := .expired }

/-- A chicken pantry item whose `currentSize.unit` is missing (empty). -/
def unitlessChickenItem : PantryItem :=
  { pantryItemOf 4 mockChicken 500 with currentSize := ⟨500, ""⟩ }

end Forkful

namespace Forkful

/-! ## Helper lemmas -/

theorem jsRound_eq_of (z : ℤ) (q : ℚ) (h1 : (z : ℚ) ≤ q + 1/2) (h2 : q + 1/2 < z + 1) :
    jsRound q = z := by
  unfold jsRound
  rw [Int.floor_eq_iff]
  exact ⟨h1, h2⟩

theorem jsRound_zero : jsRound 0 = 0 := by
  apply jsRound_eq_of <;> norm_num

theorem jsRound_nonneg (q : ℚ) (h : 0 ≤ q) : 0 ≤ jsRound q := by
  unfold jsRound
  rw [Int.le_floor]
  push_cast
  linarith

theorem jsRound_le_100 (q : ℚ) (h : q ≤ 100) : jsRound q ≤ 100 := by
  unfold jsRound
  rw [Int.floor_le_iff]
  push_cast
  linarith

theorem mem_MASS_of_category (u : String) (h : getUnitCategory u = .mass) :
    u ∈ MASS_UNITS := by
  by_cases hm : u ∈ MASS_UNITS
  · exact hm
  · by_cases hv : u ∈ VOLUME_UNITS <;> simp [getUnitCategory, hm, hv] at h

theorem mem_VOLUME_of_category (u : String) (h : getUnitCategory u = .volume) :
    u ∈ VOLUME_UNITS := by
  by_cases hm : u ∈ MASS_UNITS
  · simp [getUnitCategory, hm] at h
  · by_cases hv : u ∈ VOLUME_UNITS
    · exact hv
    · simp [getUnitCategory, hm, hv] at h

theorem mass_factor_pos (u : String) (h : u ∈ MASS_UNITS) :
    ∃ f : ℚ, MASS_TO_GRAMS u = some f ∧ 0 < f := by
  fin_cases h <;> exact ⟨_, rfl, by norm_num⟩

theorem volume_factor_pos (u : String) (h : u ∈ VOLUME_UNITS) :
    ∃ f : ℚ, VOLUME_TO_ML u = some f ∧ 0 < f := by
  fin_cases h <;> exact ⟨_, rfl, by norm_num⟩

/-! ## C6: canConvert characterization -/

/-- C6: for all unit strings `a` and `b`, `canConvert a b` is true iff the two
units have the same category and that category is not custom; `canConvert` is
symmetric; and `canConvert u u` is false for every custom unit `u`. -/
theorem canConvert_characterization (a b : String) :
    (canConvert a b = true ↔
      getUnitCategory a = getUnitCategory b ∧ getUnitCategory a ≠ .custom)
    ∧ canConvert a b = canConvert b a
    ∧ (getUnitCategory a = .custom → canConvert a a = false) := by
  refine ⟨by simp [canConvert], ?_, fun h => by simp [canConvert, h]⟩
  cases h1 : getUnitCategory a <;> cases h2 : getUnitCategory b <;>
    simp [canConvert, h1, h2]

/-- Witness for C6: the custom unit `slice` is not convertible to itself, and
`canConvert "g" "ml"` agrees with its transpose. -/
theorem canConvert_characterization_witness :
    canConvert "slice" "slice" = false ∧ canConvert "g" "ml" = canConvert "ml" "g" :=
  ⟨(canConvert_characterization "slice" "slice").2.2 (by decide),
   (canConvert_characterization "g" "ml").2.1⟩

/-! ## C5: calorie calculator -/

/-- C5: with a positive base serving size, `calculateCalories` is exact linear
scaling `(baseCalories / baseServingSize) * targetAmount` when the target unit
equals the base serving unit; otherwise it maps the converted amount through
the same scaling, returning `none` exactly when the conversion fails. -/
theorem calculateCalories_spec (baseCalories baseServingSize targetAmount : ℚ)
    (baseServingUnit targetUnit : String) (hpos : 0 < baseServingSize) :
    (targetUnit = baseServingUnit →
      calculateCalories baseCalories baseServingSize baseServingUnit targetAmount targetUnit
        = some ((baseCalories / baseServingSize) * targetAmount))
    ∧ (targetUnit ≠ baseServingUnit →
      calculateCalories baseCalories baseServingSize baseServingUnit targetAmount targetUnit
        = (convertUnit targetAmount targetUnit baseServingUnit).map
            fun c => (baseCalories / baseServingSize) * c) := by
  constructor
  · intro h
    subst h
    simp [calculateCalories]
  · intro h
    have h' : ¬ baseServingUnit = targetUnit := fun he => h he.symm
    cases hc : convertUnit targetAmount targetUnit baseServingUnit <;>
      simp [calculateCalories, h', hc]

/-- Witness for C5 (spec example 2): 150 calories per 2 slices, asked for 4
slices, and a cross-category request that fails. -/
theorem calculateCalories_spec_witness :
    calculateCalories 150 2 "slice" 4 "slice" = some ((150 / 2) * 4)
    ∧ calculateCalories 150 2 "g" 4 "slice"
        = (convertUnit 4 "slice" "g").map fun c => (150 / 2) * c :=
  ⟨(calculateCalories_spec 150 2 4 "slice" "slice" (by norm_num)).1 rfl,
   (calculateCalories_spec 150 2 4 "g" "slice" (by norm_num)).2 (by decide)⟩

/-! ## C7: unit-conversion round trip -/

/-- C7: whenever `canConvert a b` holds, converting a value from `a` to `b`
succeeds and converting the result back from `b` to `a` returns exactly the
original value (exact arithmetic; the implementation works in floats). -/
theorem convertUnit_round_trip (value : ℚ) (a b : String)
    (h : canConvert a b = true) :
    ∃ w : ℚ, convertUnit value a b = some w ∧ convertUnit w b a = some value := by
  have hcat : getUnitCategory a = getUnitCategory b ∧ getUnitCategory a ≠ .custom := by
    simpa [canConvert] using h
  have hba : canConvert b a = true := by
    simp [canConvert, hcat.1.symm, ← hcat.1, hcat.2]
  cases hc : getUnitCategory a with
  | custom => exact absurd hc hcat.2
  | mass =>
    have hcb : getUnitCategory b = .mass := hcat.1 ▸ hc
    obtain ⟨fa, hfa, hfa0⟩ := mass_factor_pos a (mem_MASS_of_category a hc)
    obtain ⟨fb, hfb, hfb0⟩ := mass_factor_pos b (mem_MASS_of_category b hcb)
    have ha0 : fa ≠ 0 := ne_of_gt hfa0
    have hb0 : fb ≠ 0 := ne_of_gt hfb0
    have hval : value * fa / fb * fb / fa = value := by
      field_simp
    refine ⟨value * fa / fb, ?_, ?_⟩
    · simp [convertUnit, h, hc, hfa, hfb]
    · simp [convertUnit, hba, hcb, hfa, hfb, hval]
  | volume =>
    have hcb : getUnitCategory b = .volume := hcat.1 ▸ hc
    obtain ⟨fa, hfa, hfa0⟩ := volume_factor_pos a (mem_VOLUME_of_category a hc)
    obtain ⟨fb, hfb, hfb0⟩ := volume_factor_pos b (mem_VOLUME_of_category b hcb)
    have ha0 : fa ≠ 0 := ne_of_gt hfa0
    have hb0 : fb ≠ 0 := ne_of_gt hfb0
    have hval : value * fa / fb * fb / fa = value := by
      field_simp
    refine ⟨value * fa / fb, ?_, ?_⟩
    · simp [convertUnit, h, hc, hfa, hfb]
    · simp [convertUnit, hba, hcb, hfa, hfb, hval]

/-- Witness for C7 (spec example 1): 500 grams to kilograms and back. -/
theorem convertUnit_round_trip_witness :
    ∃ w : ℚ, convertUnit 500 "g" "kg" = some w ∧ convertUnit w "kg" "g" = some 500 :=
  convertUnit_round_trip 500 "g" "kg" (by decide)

/-! ## C4: freshness classifier -/

/-- C4: the freshness classifier is a pure function of the expiration date and
the current time: a null expiration date gives `good`; otherwise, with
`daysUntilExpiration = ⌈(expirationDate − now) / 86400000⌉`, a negative value
gives `expired`, a value between 0 and 7 inclusive gives `expiring-soon`, and
a value greater than 7 gives `good`. -/
theorem calculateStatus_spec (expirationDate : Option ℤ) (now : ℤ) :
    (expirationDate = none → calculateStatus expirationDate now = .good)
    ∧ ∀ expDate : ℤ, expirationDate = some expDate →
        (⌈((expDate - now : ℤ) : ℚ) / (86400000 : ℚ)⌉ < 0 →
          calculateStatus expirationDate now = .expired)
        ∧ (0 ≤ ⌈((expDate - now : ℤ) : ℚ) / (86400000 : ℚ)⌉
            ∧ ⌈((expDate - now : ℤ) : ℚ) / (86400000 : ℚ)⌉ ≤ 7 →
          calculateStatus expirationDate now = .expiringSoon)
        ∧ (7 < ⌈((expDate - now : ℤ) : ℚ) / (86400000 : ℚ)⌉ →
          calculateStatus expirationDate now = .good) := by
  refine ⟨fun h => by simp [h, calculateStatus], fun expDate h => ?_⟩
  subst h
  have hm : ((MILLISECONDS_PER_DAY : ℤ) : ℚ) = (86400000 : ℚ) := by
    norm_num [MILLISECONDS_PER_DAY]
  refine ⟨fun hlt => ?_, fun hmid => ?_, fun hgt => ?_⟩
  · simp only [calculateStatus, hm]
    rw [if_pos hlt]
  · simp only [calculateStatus, hm, EXPIRING_SOON_THRESHOLD_DAYS]
    rw [if_neg (by omega), if_pos (by omega)]
  · simp only [calculateStatus, hm, EXPIRING_SOON_THRESHOLD_DAYS]
    rw [if_neg (by omega), if_neg (by omega)]

/-- Witness for C4: the boundaries named by the claim, with `now = 0`:
exactly 7 days out is `expiring-soon`, 8 days out is `good`, one day past
expiry is `expired`, and a null expiration date is `good`. -/
theorem calculateStatus_spec_witness :
    calculateStatus (some (7 * 86400000)) 0 = .expiringSoon
    ∧ calculateStatus (some (8 * 86400000)) 0 = .good
    ∧ calculateStatus (some (-86400000)) 0 = .expired
    ∧ calculateStatus none 0 = .good := by
  have c7 : (⌈(((7 * 86400000 : ℤ) - 0 : ℤ) : ℚ) / (86400000 : ℚ)⌉ : ℤ) = 7 := by
    rw [Int.ceil_eq_iff] <;> norm_num
  have c8 : (⌈(((8 * 86400000 : ℤ) - 0 : ℤ) : ℚ) / (86400000 : ℚ)⌉ : ℤ) = 8 := by
    rw [Int.ceil_eq_iff] <;> norm_num
  have cm1 : (⌈(((-86400000 : ℤ) - 0 : ℤ) : ℚ) / (86400000 : ℚ)⌉ : ℤ) = -1 := by
    rw [Int.ceil_eq_iff] <;> norm_num
  refine ⟨((calculateStatus_spec (some (7 * 86400000)) 0).2 _ rfl).2.1 (by rw [c7]; omega),
    ((calculateStatus_spec (some (8 * 86400000)) 0).2 _ rfl).2.2 (by rw [c8]; omega),
    ((calculateStatus_spec (some (-86400000)) 0).2 _ rfl).1 (by rw [cm1]; omega),
    (calculateStatus_spec none 0).1 rfl⟩

/-! ## C8: Jaccard similarity -/

/-- C8: `calculateJaccardSimilarity` is symmetric; it is 1 on any list whose
normalized set is non-empty compared with itself; it is 0 whenever either
normalized set is empty (including two empty inputs); and on two non-empty
normalized sets it is `|A ∩ B| / |A ∪ B|`. -/
theorem jaccard_spec (A B : List String) :
    calculateJaccardSimilarity A B = calculateJaccardSimilarity B A
    ∧ (normalizeNames A ≠ ∅ → calculateJaccardSimilarity A A = 1)
    ∧ (normalizeNames A = ∅ ∨ normalizeNames B = ∅ →
        calculateJaccardSimilarity A B = 0)
    ∧ (normalizeNames A ≠ ∅ → normalizeNames B ≠ ∅ →
        calculateJaccardSimilarity A B
          = ((normalizeNames A ∩ normalizeNames B).card : ℚ)
              / ((normalizeNames A ∪ normalizeNames B).card : ℚ)) := by
  refine ⟨?_, fun hA => ?_, fun h => ?_, fun hA hB => ?_⟩
  · by_cases h1 : (normalizeNames A).card = 0 <;>
      by_cases h2 : (normalizeNames B).card = 0 <;>
      simp [calculateJaccardSimilarity, h1, h2, Finset.inter_comm, Finset.union_comm]
  · have hc : (normalizeNames A).card ≠ 0 := fun hc =>
      hA (Finset.card_eq_zero.mp hc)
    have hcast : ((normalizeNames A).card : ℚ) ≠ 0 := Nat.cast_ne_zero.mpr hc
    simp [calculateJaccardSimilarity, hc, Finset.inter_self, Finset.union_self,
      div_self hcast]
  · rcases h with h | h <;>
      simp [calculateJaccardSimilarity, h]
  · have h1 : (normalizeNames A).card ≠ 0 := fun hc => hA (Finset.card_eq_zero.mp hc)
    have h2 : (normalizeNames B).card ≠ 0 := fun hc => hB (Finset.card_eq_zero.mp hc)
    simp [calculateJaccardSimilarity, h1, h2]

/-- Witness for C8: a one-element list compared with itself scores 1, and two
empty lists score 0, not 1. -/
theorem jaccard_spec_witness :
    calculateJaccardSimilarity ["Ham"] ["Ham"] = 1
    ∧ calculateJaccardSimilarity ([] : List String) ([] : List String) = 0 :=
  ⟨(jaccard_spec ["Ham"] ["Ham"]).2.1 (by decide),
   (jaccard_spec [] []).2.2.1 (Or.inl (by decide))⟩

/-! ## Availability resolver lemmas -/

/-- `calculateIngredientAvailability`, with its `let` bindings written out. -/
theorem calcIngAvail_def (ing : Ingredient) (ps : List PantryItem) :
    calculateIngredientAvailability ing ps =
      if (matchingPantryItems ing ps).length = 0 then
        { ingredient := ing, available := 0, needed := ing.quantity,
          unit := ing.servingUnit, isSufficient := false, shortage := ing.quantity }
      else
        { ingredient := ing,
          available := ((matchingPantryItems ing ps).map (itemContribution ing)).sum,
          needed := ing.quantity, unit := ing.servingUnit,
          isSufficient :=
            decide (((matchingPantryItems ing ps).map (itemContribution ing)).sum ≥ ing.quantity),
          shortage :=
            max 0 (ing.quantity - ((matchingPantryItems ing ps).map (itemContribution ing)).sum) } :=
  rfl

/-- A sufficient availability result always has `needed ≤ available`. -/
theorem isSufficient_imp_le (ing : Ingredient) (ps : List PantryItem)
    (h : (calculateIngredientAvailability ing ps).isSufficient = true) :
    (calculateIngredientAvailability ing ps).needed
      ≤ (calculateIngredientAvailability ing ps).available := by
  rw [calcIngAvail_def] at h ⊢
  by_cases hm : (matchingPantryItems ing ps).length = 0
  · simp [hm] at h
  · simp only [hm, if_false, ge_iff_le, decide_eq_true_eq, reduceIte] at h ⊢
    exact h

/-! ## C1: sufficiency and shortage equations -/

/-- C1 (amended): provided the needed quantity is positive or at least one
non-expired pantry item matches the ingredient's food,
`isSufficient = (available >= needed)` and
`shortage = max(0, needed - available)`, so `shortage` is never negative.
(Unrestricted, the claim fails: with `needed ≤ 0` and no matching item the
early return reports `isSufficient = false` and `shortage = needed`.) -/
theorem availability_sufficiency_shortage (ing : Ingredient) (ps : List PantryItem)
    (h : 0 < ing.quantity ∨ matchingPantryItems ing ps ≠ []) :
    ((calculateIngredientAvailability ing ps).isSufficient = true ↔
      (calculateIngredientAvailability ing ps).needed
        ≤ (calculateIngredientAvailability ing ps).available)
    ∧ (calculateIngredientAvailability ing ps).shortage
        = max 0 ((calculateIngredientAvailability ing ps).needed
            - (calculateIngredientAvailability ing ps).available)
    ∧ 0 ≤ (calculateIngredientAvailability ing ps).shortage := by
  rw [calcIngAvail_def]
  by_cases hm : (matchingPantryItems ing ps).length = 0
  · have hq : 0 < ing.quantity := by
      rcases h with h | h
      · exact h
      · exact absurd (List.length_eq_zero.mp hm) h
    simp only [hm, if_true, reduceIte]
    refine ⟨?_, ?_, le_of_lt hq⟩
    · constructor
      · intro hfalse
        simp at hfalse
      · intro hle
        exact absurd (lt_of_lt_of_le hq hle) (by norm_num)
    · rw [sub_zero, max_eq_right (le_of_lt hq)]
  · simp only [hm, if_false, reduceIte, ge_iff_le, decide_eq_true_eq]
    exact ⟨trivial, trivial, le_max_left 0 _⟩

/-- Witness for C1: 200 g of chicken needed against an empty pantry. -/
theorem availability_sufficiency_shortage_witness :
    ((calculateIngredientAvailability (chickenIngredient 200) []).isSufficient = true ↔
      (calculateIngredientAvailability (chickenIngredient 200) []).needed
        ≤ (calculateIngredientAvailability (chickenIngredient 200) []).available)
    ∧ (calculateIngredientAvailability (chickenIngredient 200) []).shortage
        = max 0 ((calculateIngredientAvailability (chickenIngredient 200) []).needed
            - (calculateIngredientAvailability (chickenIngredient 200) []).available)
    ∧ 0 ≤ (calculateIngredientAvailability (chickenIngredient 200) []).shortage :=
  availability_sufficiency_shortage (chickenIngredient 200) [] (Or.inl (by decide))

/-- Counterexample to C1 as stated: an ingredient whose needed quantity is 0
against an empty pantry gets `isSufficient = false` even though
`available >= needed` holds (`0 >= 0`). -/
theorem availability_claim_counterexample :
    (calculateIngredientAvailability (chickenIngredient 0) []).isSufficient = false
    ∧ (calculateIngredientAvailability (chickenIngredient 0) []).needed
        ≤ (calculateIngredientAvailability (chickenIngredient 0) []).available := by
  rw [calcIngAvail_def]
  refine ⟨by simp [matchingPantryItems], ?_⟩
  simp [matchingPantryItems, chickenIngredient]

/-! ## C9: expired items never contribute -/

/-- C9: inserting (equivalently, removing) a pantry item whose status is
`expired` anywhere in the pantry list leaves the result of
`calculateIngredientAvailability` unchanged. -/
theorem expired_item_no_contribution (ing : Ingredient) (l1 l2 : List PantryItem)
    (e : PantryItem) (h : e.status = .expired) :
    calculateIngredientAvailability ing (l1 ++ e :: l2)
      = calculateIngredientAvailability ing (l1 ++ l2) := by
  have hfilter : matchingPantryItems ing (l1 ++ e :: l2)
      = matchingPantryItems ing (l1 ++ l2) := by
    simp [matchingPantryItems, List.filter_append, List.filter_cons, h]
  rw [calcIngAvail_def, calcIngAvail_def, hfilter]

/-- Witness for C9: an expired 500 g chicken item contributes nothing. -/
theorem expired_item_no_contribution_witness :
    calculateIngredientAvailability (chickenIngredient 200) [expiredChickenItem]
      = calculateIngredientAvailability (chickenIngredient 200) [] :=
  expired_item_no_contribution (chickenIngredient 200) [] [] expiredChickenItem rfl

/-! ## C10: missing pantry-item unit defaults -/

theorem jsOr_self (a : String) : jsOr a a = a := by
  unfold jsOr
  split <;> simp_all

theorem jsOr_empty (b : String) : jsOr "" b = b := rfl

/-- Replacing one pantry item by another with the same food id, status and
contribution leaves `calculateIngredientAvailability` unchanged. -/
theorem calcIngAvail_replace_item (ing : Ingredient) (l1 l2 : List PantryItem)
    (e e' : PantryItem) (hf : e'.food.id = e.food.id) (hs : e'.status = e.status)
    (hc : itemContribution ing e' = itemContribution ing e) :
    calculateIngredientAvailability ing (l1 ++ e' :: l2)
      = calculateIngredientAvailability ing (l1 ++ e :: l2) := by
  have hp : (decide (e'.food.id = ing.food.id)
        && !(decide (e'.status = PantryItemStatus.expired)))
      = (decide (e.food.id = ing.food.id)
        && !(decide (e.status = PantryItemStatus.expired))) := by
    rw [hf, hs]
  by_cases hpe : (decide (e.food.id = ing.food.id)
      && !(decide (e.status = PantryItemStatus.expired))) = true
  · have hm' : matchingPantryItems ing (l1 ++ e' :: l2)
        = matchingPantryItems ing l1 ++ e' :: matchingPantryItems ing l2 := by
      simp [matchingPantryItems, List.filter_append, List.filter_cons, hp, hpe]
    have hm : matchingPantryItems ing (l1 ++ e :: l2)
        = matchingPantryItems ing l1 ++ e :: matchingPantryItems ing l2 := by
      simp [matchingPantryItems, List.filter_append, List.filter_cons, hpe]
    rw [calcIngAvail_def, calcIngAvail_def, hm', hm]
    simp [List.map_append, List.sum_append, hc]
  · have hm' : matchingPantryItems ing (l1 ++ e' :: l2)
        = matchingPantryItems ing (l1 ++ l2) := by
      simp [matchingPantryItems, List.filter_append, List.filter_cons, hp, hpe]
    have hm : matchingPantryItems ing (l1 ++ e :: l2)
        = matchingPantryItems ing (l1 ++ l2) := by
      simp [matchingPantryItems, List.filter_append, List.filter_cons, hpe]
    rw [calcIngAvail_def, calcIngAvail_def, hm', hm]

/-- C10: a matching pantry item whose `currentSize.unit` is missing (empty) is
treated as if its size were stated in the ingredient's food's `servingUnit`,
falling back to grams (`"g"`) when that too is missing; it then contributes by
the same equal-unit / convertible / skip rules as any other item. -/
theorem missing_unit_defaults (ing : Ingredient) (l1 l2 : List PantryItem)
    (e : PantryItem) (h : e.currentSize.unit = "") :
    calculateIngredientAvailability ing (l1 ++ e :: l2)
      = calculateIngredientAvailability ing
          (l1 ++ ({ e with currentSize :=
            ⟨e.currentSize.size, jsOr ing.food.servingUnit "g"⟩ } : PantryItem) :: l2) := by
  refine calcIngAvail_replace_item ing l1 l2
    ({ e with currentSize := ⟨e.currentSize.size, jsOr ing.food.servingUnit "g"⟩ }) e
    rfl rfl ?_
  unfold itemContribution
  rw [h, jsOr_empty, jsOr_self]

/-- Witness for C10: a chicken item with an empty unit is read in the food's
serving unit (grams here), i.e. exactly like the explicit-unit item. -/
theorem missing_unit_defaults_witness :
    calculateIngredientAvailability (chickenIngredient 200) [unitlessChickenItem]
      = calculateIngredientAvailability (chickenIngredient 200)
          [pantryItemOf 4 mockChicken 500] :=
  missing_unit_defaults (chickenIngredient 200) [] [] unitlessChickenItem rfl

/-! ## Readiness scorer lemmas -/

theorem jsRound_hundred : jsRound 100 = 100 := by
  apply jsRound_eq_of <;> norm_num

theorem length_filter_two_disjoint {α : Type} (l : List α) (p q : α → Bool)
    (h : ∀ a ∈ l, ¬(p a = true ∧ q a = true)) :
    (l.filter p).length + (l.filter q).length ≤ l.length := by
  induction l with
  | nil => simp
  | cons a t ih =>
    have ha := h a (List.mem_cons_self a t)
    have iht := ih fun x hx => h x (List.mem_cons_of_mem a hx)
    cases hp : p a
    · cases hq : q a <;> simp [List.filter_cons, hp, hq] <;> omega
    · cases hq : q a
      · simp [List.filter_cons, hp, hq]
        omega
      · exact absurd ⟨hp, hq⟩ ha

/-! ## C2: readiness score range and extremes -/

/-- C2 (amended): the readiness score always lies in `[0, 100]`; it is 100
whenever the recipe is non-empty and every ingredient is sufficient, and
conversely a score of 100 forces every ingredient sufficient for recipes of
fewer than 100 ingredients; it is 0 for a recipe with zero ingredients, and 0
whenever every ingredient has zero availability and positive needed quantity.
(As stated the claim fails: an empty recipe scores 0 while "every ingredient
is sufficient" holds vacuously, and with 100 ingredients of which 99 are
sufficient and one partial the score rounds up to 100.) -/
theorem readiness_score_bounds (r : Recipe) (p : List PantryItem) :
    (0 ≤ (calculateRecipeReadiness r p).readinessScore
      ∧ (calculateRecipeReadiness r p).readinessScore ≤ 100)
    ∧ (r.ingredients ≠ [] →
        (∀ d ∈ (calculateRecipeReadiness r p).ingredientDetails, d.isSufficient = true) →
        (calculateRecipeReadiness r p).readinessScore = 100)
    ∧ (r.ingredients.length < 100 →
        (calculateRecipeReadiness r p).readinessScore = 100 →
        ∀ d ∈ (calculateRecipeReadiness r p).ingredientDetails, d.isSufficient = true)
    ∧ (r.ingredients = [] → (calculateRecipeReadiness r p).readinessScore = 0)
    ∧ ((∀ d ∈ (calculateRecipeReadiness r p).ingredientDetails,
          d.available = 0 ∧ 0 < d.needed) →
        (calculateRecipeReadiness r p).readinessScore = 0) := by
  have hdet : (calculateRecipeReadiness r p).ingredientDetails
      = r.ingredients.map fun i => calculateIngredientAvailability i p := rfl
  set D := r.ingredients.map fun i => calculateIngredientAvailability i p with hD
  set A := (D.filter fun d => d.isSufficient).length with hA
  set P := (D.filter fun d => decide (d.available > 0) && !d.isSufficient).length with hP
  set n := D.length with hn
  have hscore : (calculateRecipeReadiness r p).readinessScore
      = jsRound (if n = 0 then (0 : ℚ) else (((A : ℚ) + (P : ℚ) * (1/2)) / (n : ℚ)) * 100) :=
    rfl
  have hlen : n = r.ingredients.length := by
    rw [hn, hD, List.length_map]
  have hA_le : A ≤ n := List.length_filter_le _ _
  have hAP : A + P ≤ n := by
    apply length_filter_two_disjoint
    intro d _ hcontra
    rw [hcontra.1] at hcontra
    simp at hcontra
  constructor
  · -- score range
    by_cases hn0 : n = 0
    · rw [hscore, if_pos hn0, jsRound_zero]
      norm_num
    · rw [hscore, if_neg hn0]
      have hnq : (0 : ℚ) < (n : ℚ) := by
        exact_mod_cast Nat.pos_of_ne_zero hn0
      have hAPq : (A : ℚ) + (P : ℚ) * (1/2) ≤ (n : ℚ) := by
        have h1 : (A : ℚ) + (P : ℚ) ≤ (n : ℚ) := by exact_mod_cast hAP
        have h2 : (0 : ℚ) ≤ (P : ℚ) := by positivity
        linarith
      constructor
      · apply jsRound_nonneg
        positivity
      · apply jsRound_le_100
        rw [div_mul_eq_mul_div, div_le_iff hnq]
        linarith
  refine ⟨?_, ?_, ?_, ?_⟩
  · -- non-empty and all sufficient gives 100
    intro hne hall
    rw [hdet] at hall
    have hn0 : n ≠ 0 := by
      rw [hlen]
      simpa using fun hnil => hne (List.length_eq_zero.mp hnil)
    have hAn : A = n := by
      rw [hA, List.filter_eq_self.mpr hall]
    have hP0 : P = 0 := by
      rw [hP, List.length_eq_zero]
      apply List.filter_eq_nil.mpr
      intro d hd
      rw [hall d hd]
      simp
    have hnq : (n : ℚ) ≠ 0 := Nat.cast_ne_zero.mpr hn0
    rw [hscore, if_neg hn0, hAn, hP0]
    have : (((n : ℚ) + (0 : ℕ) * (1/2)) / (n : ℚ)) * 100 = 100 := by
      field_simp
    rw [this, jsRound_hundred]
  · -- under 100 ingredients, a score of 100 forces all sufficient
    intro hlt h100 d hd
    by_contra hds
    rw [hdet] at hd
    have hn0 : n ≠ 0 := by
      intro hn0
      rw [hscore, if_pos hn0, jsRound_zero] at h100
      exact absurd h100 (by norm_num)
    have hnq : (0 : ℚ) < (n : ℚ) := by
      exact_mod_cast Nat.pos_of_ne_zero hn0
    rw [hscore, if_neg hn0] at h100
    have hq : (100 : ℚ) ≤ (((A : ℚ) + (P : ℚ) * (1/2)) / (n : ℚ)) * 100 + 1/2 := by
      have := Int.le_floor.mp (le_of_eq h100.symm)
      simpa [jsRound] using this
    have hkey : 199 * n ≤ 200 * A + 100 * P := by
      have h1 : (199 : ℚ) * (n : ℚ) ≤ 200 * (A : ℚ) + 100 * (P : ℚ) := by
        have h2 : (199/2 : ℚ) ≤ ((A : ℚ) + (P : ℚ) * (1/2)) * 100 / (n : ℚ) := by
          rw [div_mul_eq_mul_div] at hq
          linarith
        rw [le_div_iff hnq] at h2
        linarith
      exact_mod_cast h1
    have hAn : A ≠ n := by
      intro hAn
      exact hds (List.filter_length_eq_length.mp hAn d hd)
    have hAlt : A + 1 ≤ n := Nat.succ_le_of_lt (lt_of_le_of_ne hA_le hAn)
    rw [hlen] at hn0 hkey hAlt
    rw [← hlen] at hlt
    omega
  · -- zero ingredients give score 0
    intro hnil
    have hn0 : n = 0 := by
      rw [hlen, hnil]
      rfl
    rw [hscore, if_pos hn0, jsRound_zero]
  · -- all ingredients missing with positive need give score 0
    intro hall
    rw [hdet] at hall
    by_cases hn0 : n = 0
    · rw [hscore, if_pos hn0, jsRound_zero]
    · have hnosuff : ∀ d ∈ D, d.isSufficient = false := by
        intro d hd
        obtain ⟨i, _, hi⟩ := List.mem_map.mp hd
        by_contra hcon
        have htrue : d.isSufficient = true := by
          cases hcase : d.isSufficient
          · exact absurd hcase hcon
          · rfl
        have hle := hi ▸ isSufficient_imp_le i p (hi ▸ htrue)
        have h1 := (hall d hd).1
        have h2 := (hall d hd).2
        rw [h1] at hle
        exact absurd (lt_of_lt_of_le h2 hle) (by norm_num)
      have hA0 : A = 0 := by
        rw [hA, List.length_eq_zero]
        apply List.filter_eq_nil.mpr
        intro d hd
        rw [hnosuff d hd]
        simp
      have hP0 : P = 0 := by
        rw [hP, List.length_eq_zero]
        apply List.filter_eq_nil.mpr
        intro d hd
        rw [(hall d hd).1]
        simp
      rw [hscore, if_neg hn0, hA0, hP0]
      have : ((((0 : ℕ) : ℚ) + ((0 : ℕ) : ℚ) * (1/2)) / (n : ℚ)) * 100 = 0 := by
        norm_num
      rw [this, jsRound_zero]

/-- One gram of chicken needed: the sample pantry covers it amply. -/
theorem chicken_avail : calculateIngredientAvailability (chickenIngredient 1) samplePantry
    = { ingredient := chickenIngredient 1, available := 1000, needed := 1, unit := "g",
        isSufficient := true, shortage := 0 } := by
  have hm : matchingPantryItems (chickenIngredient 1) samplePantry
      = [pantryItemOf 1 mockChicken 1000] := by
    simp [matchingPantryItems, samplePantry, List.filter_cons, pantryItemOf,
      mockChicken, mockRice, chickenIngredient]
  rw [calcIngAvail_def, hm]
  norm_num [itemContribution, pantryItemOf, mockChicken, chickenIngredient, jsOr]

/-- Two grams of rice needed: the sample pantry only has one. -/
theorem rice_avail : calculateIngredientAvailability (riceIngredient 2) samplePantry
    = { ingredient := riceIngredient 2, available := 1, needed := 2, unit := "g",
        isSufficient := false, shortage := 1 } := by
  have hm : matchingPantryItems (riceIngredient 2) samplePantry
      = [pantryItemOf 2 mockRice 1] := by
    simp [matchingPantryItems, samplePantry, List.filter_cons, pantryItemOf,
      mockChicken, mockRice, riceIngredient]
  rw [calcIngAvail_def, hm]
  norm_num [itemContribution, pantryItemOf, mockRice, riceIngredient, jsOr]

/-- Full evaluation of the 100-ingredient recipe against the sample pantry:
99 sufficient lines and 1 partial line round up to a score of 100. -/
theorem readiness_ce_eval : calculateRecipeReadiness hundredIngredientRecipe samplePantry =
    { recipeId := 1, totalIngredients := 100, availableIngredients := 99,
      partialIngredients := 1, missingIngredients := 0, readinessScore := 100,
      ingredientDetails :=
        List.replicate 99
          { ingredient := chickenIngredient 1, available := 1000, needed := 1, unit := "g",
            isSufficient := true, shortage := 0 }
        ++ [{ ingredient := riceIngredient 2, available := 1, needed := 2, unit := "g",
              isSufficient := false, shortage := 1 }] } := by
  unfold calculateRecipeReadiness
  rw [show hundredIngredientRecipe.ingredients
      = List.replicate 99 (chickenIngredient 1) ++ [riceIngredient 2] from rfl]
  rw [List.map_append, List.map_replicate]
  simp only [List.map_cons, List.map_nil, chicken_avail, rice_avail]
  simp only [List.filter_append, List.filter_replicate, List.filter_cons, List.filter_nil,
    List.length_append, List.length_replicate]
  norm_num [jsRound, hundredIngredientRecipe]

/-- Counterexample to C2 as stated: the 100-ingredient recipe scores exactly
100 although its rice line is not sufficient, so "score = 100 iff every
ingredient is sufficient" fails on the code. -/
theorem readiness_claim_counterexample :
    (calculateRecipeReadiness hundredIngredientRecipe samplePantry).readinessScore = 100
    ∧ ¬(∀ d ∈ (calculateRecipeReadiness hundredIngredientRecipe samplePantry).ingredientDetails,
        d.isSufficient = true) := by
  rw [readiness_ce_eval]
  constructor
  · rfl
  · intro hall
    have hbad := hall _ (List.mem_append_right _ (List.mem_singleton_self _))
    simp at hbad

/-- Witness for C2 (amended): a one-line recipe fully covered by the pantry
scores 100; the empty recipe scores 0; a one-line recipe with nothing in the
pantry scores 0; and a score of 100 on the covered one-line recipe implies all
its lines are sufficient. -/
theorem readiness_score_bounds_witness :
    (calculateRecipeReadiness { id := 5, ingredients := [chickenIngredient 1] }
        samplePantry).readinessScore = 100
    ∧ (calculateRecipeReadiness { id := 6, ingredients := [] } samplePantry).readinessScore = 0
    ∧ (calculateRecipeReadiness { id := 7, ingredients := [chickenIngredient 1] }
        []).readinessScore = 0
    ∧ (∀ d ∈ (calculateRecipeReadiness { id := 5, ingredients := [chickenIngredient 1] }
        samplePantry).ingredientDetails, d.isSufficient = true)
    ∧ 0 ≤ (calculateRecipeReadiness { id := 5, ingredients := [chickenIngredient 1] }
        samplePantry).readinessScore := by
  have hall : ∀ d ∈ (calculateRecipeReadiness { id := 5, ingredients := [chickenIngredient 1] }
      samplePantry).ingredientDetails, d.isSufficient = true := by
    intro d hd
    have : (calculateRecipeReadiness { id := 5, ingredients := [chickenIngredient 1] }
        samplePantry).ingredientDetails
        = [calculateIngredientAvailability (chickenIngredient 1) samplePantry] := rfl
    rw [this, List.mem_singleton] at hd
    rw [hd, chicken_avail]
  have h100 := (readiness_score_bounds { id := 5, ingredients := [chickenIngredient 1] }
      samplePantry).2.1 (by simp) hall
  have hmissing : ∀ d ∈ (calculateRecipeReadiness { id := 7, ingredients := [chickenIngredient 1] }
      []).ingredientDetails, d.available = 0 ∧ 0 < d.needed := by
    intro d hd
    have : (calculateRecipeReadiness { id := 7, ingredients := [chickenIngredient 1] }
        []).ingredientDetails
        = [calculateIngredientAvailability (chickenIngredient 1) []] := rfl
    rw [this, List.mem_singleton] at hd
    rw [hd, calcIngAvail_def]
    norm_num [matchingPantryItems, chickenIngredient]
  refine ⟨h100, ?_, ?_, ?_, ?_⟩
  · exact (readiness_score_bounds { id := 6, ingredients := [] } samplePantry).2.2.2.1 rfl
  · exact (readiness_score_bounds { id := 7, ingredients := [chickenIngredient 1] } []).2.2.2.2
      hmissing
  · exact (readiness_score_bounds { id := 5, ingredients := [chickenIngredient 1] }
      samplePantry).2.2.1 (by norm_num) h100
  · exact (readiness_score_bounds { id := 5, ingredients := [chickenIngredient 1] }
      samplePantry).1.1

/-! ## C3: the readiness score formula -/

/-- C3: `calculateRecipeReadiness` returns
`readinessScore = round((availableIngredients + 0.5 * partialIngredients)
/ totalIngredients * 100)`, where `availableIngredients` counts sufficient
ingredients, `partialIngredients` counts those with `available > 0` that are
not sufficient, `missingIngredients` counts those with `available = 0`, and a
zero-ingredient recipe scores 0. -/
theorem readiness_formula (r : Recipe) (p : List PantryItem) :
    (calculateRecipeReadiness r p).ingredientDetails
        = r.ingredients.map (fun i => calculateIngredientAvailability i p)
    ∧ (calculateRecipeReadiness r p).totalIngredients = r.ingredients.length
    ∧ (calculateRecipeReadiness r p).availableIngredients
        = (calculateRecipeReadiness r p).ingredientDetails.countP (fun d => d.isSufficient)
    ∧ (calculateRecipeReadiness r p).partialIngredients
        = (calculateRecipeReadiness r p).ingredientDetails.countP
            (fun d => decide (d.available > 0) && !d.isSufficient)
    ∧ (calculateRecipeReadiness r p).missingIngredients
        = (calculateRecipeReadiness r p).ingredientDetails.countP
            (fun d => decide (d.available = 0))
    ∧ (calculateRecipeReadiness r p).readinessScore
        = (if r.ingredients.length = 0 then 0
           else jsRound ((((calculateRecipeReadiness r p).availableIngredients : ℚ)
              + (1/2) * ((calculateRecipeReadiness r p).partialIngredients : ℚ))
              / (r.ingredients.length : ℚ) * 100)) := by
  set D := r.ingredients.map fun i => calculateIngredientAvailability i p with hD
  set A := (D.filter fun d => d.isSufficient).length with hA
  set P := (D.filter fun d => decide (d.available > 0) && !d.isSufficient).length with hP
  set n := D.length with hn
  have hscore : (calculateRecipeReadiness r p).readinessScore
      = jsRound (if n = 0 then (0 : ℚ) else (((A : ℚ) + (P : ℚ) * (1/2)) / (n : ℚ)) * 100) :=
    rfl
  have hav : (calculateRecipeReadiness r p).availableIngredients = A := rfl
  have hpart : (calculateRecipeReadiness r p).partialIngredients = P := rfl
  have hlen : n = r.ingredients.length := by
    rw [hn, hD, List.length_map]
  refine ⟨rfl, ?_, ?_, ?_, ?_, ?_⟩
  · exact hlen.symm ▸ rfl
  · exact (List.countP_eq_length_filter _ _).symm
  · exact (List.countP_eq_length_filter _ _).symm
  · exact (List.countP_eq_length_filter _ _).symm
  · rw [hscore, hav, hpart, ← hlen]
    by_cases hn0 : n = 0
    · rw [if_pos hn0, if_pos hn0, jsRound_zero]
    · rw [if_neg hn0, if_neg hn0]
      congr 1
      ring

end Forkful
